import Mathlib

/-!
Verification of the cafe-kiosk / robot voice-agent core.

This file gives a shallow embedding of the stateful services of the
repository (the cafe order cart of `cafe_system.py`, the robot controller of
`hri_functions.py`, the kiosk UI state machine of `kiosk_ui.py`, the
conversation-context tracking of `cafe_voice_agent.py`, and the tool-call
dispatchers of `unified_voice_agent.py` and `voice_cafe_kiosk_demo.py`) and
proves or refutes the specification claims about them.

Modelling conventions: monetary values are integer cents and robot distances
are rationals (exact arithmetic, as the claims are read over exact
arithmetic); each Python method that mutates `self` becomes a function from
the state to a pair of the new state and a result; each `return` statement of
a method corresponds to one constructor of that method's result type.
Wall-clock timestamps (`created_at`, `estimated_ready_time`,
`last_interaction`) and the purely cosmetic terminal rendering are outside
the embedding.
-/

/-- Contiguous-sublist test on character lists, used for the Python `in`
operator on strings. -/
def charsInfix (needle : List Char) : List Char → Bool
  | [] => needle.isEmpty
  | c :: rest => needle.isPrefixOf (c :: rest) || charsInfix needle rest

/-- Substring test: `strIn needle haystack` is the Python `needle in haystack`
on strings (contiguous substring). -/
def strIn (needle haystack : String) : Bool :=
  charsInfix needle.toList haystack.toList

/-- The Python `str.lower()`, character by character. -/
def strLower (s : String) : String :=
  String.mk (s.toList.map Char.toLower)

/-- The Python `str.replace(a, b)` for one-character patterns (the only form
the source uses: space versus underscore in category names). -/
def replaceChar (s : String) (a b : Char) : String :=
  String.mk (s.toList.map (fun c => if c = a then b else c))

/-- Order lifecycle status, from `OrderStatus` in cafe_system.py. -/
inductive OrderStatus
  | pending
  | confirmed
  | preparing
  | ready
  | delivered
  | cancelled
deriving DecidableEq, Repr

/-- Payment status, from `PaymentStatus` in cafe_system.py. -/
inductive PaymentStatus
  | pending
  | processing
  | completed
  | failed
deriving DecidableEq, Repr

/-- A catalog entry, from the `MenuItem` dataclass in cafe_system.py.
Monetary values are integer cents, an exact representation of the source's
decimal prices (all multiples of $0.25); kernel arithmetic on integers then
evaluates concrete scenarios directly. -/
structure MenuItem where
  id : String
  name : String
  description : String
  price : ℤ
  category : String
  available : Bool
  preparationTime : ℕ
  customizations : List String
deriving DecidableEq, Repr

/-- One line of an order, from the `OrderItem` dataclass in cafe_system.py.
The quantity is an integer, as in the tool schema (Python does not restrict
it to be positive). -/
structure OrderItem where
  menuItem : MenuItem
  quantity : ℤ
  customizations : List String
  notes : String
deriving DecidableEq, Repr

/-- The `total_price` property of `OrderItem`: price times quantity (cents). -/
def OrderItem.totalPrice (oi : OrderItem) : ℤ :=
  oi.menuItem.price * oi.quantity

/-- An order, from the `Order` dataclass in cafe_system.py.  The wall-clock
fields `created_at` and `estimated_ready_time` are omitted (no claim reads
them). -/
structure Order where
  id : String
  customerName : String
  items : List OrderItem
  status : OrderStatus
  paymentStatus : PaymentStatus
  totalAmount : ℤ
deriving DecidableEq, Repr

/-- The whole cafe kiosk state, from `CafeKioskSystem.__init__`.  The menu is
a constant (see `menu` below) and is kept out of the mutable state. -/
structure CafeKioskSystem where
  currentOrder : Option Order
  orderHistory : List Order
  orderCounter : ℕ
  customerName : String
deriving DecidableEq, Repr

/-- The fresh system built by `CafeKioskSystem.__init__`. -/
def initialSystem : CafeKioskSystem :=
  { currentOrder := none, orderHistory := [], orderCounter := 1, customerName := "" }

/-- The static menu from `CafeKioskSystem._initialize_menu`, in insertion
order (Python dict iteration order).  Prices are in cents (350 is the
source's 3.50, and so on). -/
def menu : List MenuItem :=
  [ { id := "esp001", name := "Espresso", description := "Rich and bold espresso shot",
      price := 350, category := "coffee", available := true, preparationTime := 5,
      customizations := ["extra_shot", "decaf"] },
    { id := "cap001", name := "Cappuccino", description := "Espresso with steamed milk foam",
      price := 450, category := "coffee", available := true, preparationTime := 5,
      customizations := ["extra_shot", "decaf", "oat_milk", "almond_milk", "soy_milk"] },
    { id := "lat001", name := "Latte", description := "Smooth espresso with steamed milk",
      price := 475, category := "coffee", available := true, preparationTime := 5,
      customizations := ["extra_shot", "decaf", "vanilla", "caramel", "oat_milk", "almond_milk"] },
    { id := "ame001", name := "Americano", description := "Espresso with hot water",
      price := 375, category := "coffee", available := true, preparationTime := 5,
      customizations := ["extra_shot", "decaf"] },
    { id := "mac001", name := "Macchiato", description := "Espresso marked with milk foam",
      price := 425, category := "coffee", available := true, preparationTime := 5,
      customizations := ["extra_shot", "decaf", "caramel"] },
    { id := "ice001", name := "Iced Coffee", description := "Cold brew coffee over ice",
      price := 400, category := "cold_drinks", available := true, preparationTime := 5,
      customizations := ["extra_shot", "vanilla", "caramel", "oat_milk"] },
    { id := "fra001", name := "Frappuccino", description := "Blended ice coffee drink",
      price := 550, category := "cold_drinks", available := true, preparationTime := 5,
      customizations := ["extra_shot", "vanilla", "caramel", "chocolate"] },
    { id := "smo001", name := "Smoothie", description := "Fresh fruit smoothie",
      price := 600, category := "cold_drinks", available := true, preparationTime := 5,
      customizations := ["protein_powder", "extra_fruit"] },
    { id := "cro001", name := "Croissant", description := "Buttery, flaky pastry",
      price := 325, category := "pastries", available := true, preparationTime := 5,
      customizations := [] },
    { id := "muf001", name := "Blueberry Muffin", description := "Fresh blueberry muffin",
      price := 275, category := "pastries", available := true, preparationTime := 5,
      customizations := [] },
    { id := "dan001", name := "Danish", description := "Sweet pastry with fruit filling",
      price := 300, category := "pastries", available := true, preparationTime := 5,
      customizations := [] },
    { id := "bag001", name := "Bagel", description := "Fresh bagel with cream cheese",
      price := 400, category := "pastries", available := true, preparationTime := 5,
      customizations := ["everything", "sesame", "plain"] },
    { id := "san001", name := "Club Sandwich", description := "Turkey, bacon, lettuce, tomato",
      price := 850, category := "sandwiches", available := true, preparationTime := 5,
      customizations := [] },
    { id := "gri001", name := "Grilled Cheese", description := "Melted cheese on sourdough",
      price := 600, category := "sandwiches", available := true, preparationTime := 5,
      customizations := [] },
    { id := "veg001", name := "Veggie Wrap", description := "Fresh vegetables in tortilla wrap",
      price := 725, category := "sandwiches", available := true, preparationTime := 5,
      customizations := [] } ]

/-- The guard of `start_new_order`: a current order exists and its status is
still pending (`self.current_order and self.current_order.status == PENDING`). -/
def orderIsActivePending (s : CafeKioskSystem) : Bool :=
  match s.currentOrder with
  | some o => o.status = OrderStatus.pending
  | none => false

/-- Result of `start_new_order`; one constructor per return statement. -/
inductive StartOrderResult
  | alreadyActive
  | started (customerName orderId : String)
deriving DecidableEq, Repr

/-- Zero-padded order number, the `f"ORD{self.order_counter:04d}"` format. -/
def pad4 (n : ℕ) : String :=
  let s := toString n
  if s.length < 4 then String.mk (List.replicate (4 - s.length) '0') ++ s else s

/-- `CafeKioskSystem.start_new_order`.  If the current order is still pending
it refuses; otherwise it installs a fresh pending order (overwriting any
non-pending current order) and bumps the counter. -/
def startNewOrder (s : CafeKioskSystem) (customerName : String) :
    CafeKioskSystem × StartOrderResult :=
  if orderIsActivePending s then
    (s, StartOrderResult.alreadyActive)
  else
    let name := if customerName = "" then "Customer " ++ toString s.orderCounter
                else customerName
    let newOrder : Order :=
      { id := "ORD" ++ pad4 s.orderCounter
        customerName := name
        items := []
        status := OrderStatus.pending
        paymentStatus := PaymentStatus.pending
        totalAmount := 0 }
    ({ s with currentOrder := some newOrder
              orderCounter := s.orderCounter + 1
              customerName := name },
     StartOrderResult.started name newOrder.id)

/-- The fuzzy catalog lookup of `add_item_to_order`: first menu entry whose
lowercased name contains the lowercased query or is contained in it. -/
def findMenuItem (itemName : String) : Option MenuItem :=
  let q := strLower itemName
  menu.find? (fun item => strIn q (strLower item.name) || strIn (strLower item.name) q)

/-- Result of `add_item_to_order`; one constructor per return statement.
`internalNoOrder` marks the path where no current order exists after the
auto-start, which never happens (in the source it would be an attribute
error on `None`, not a return). -/
inductive AddItemResult
  | itemNotFound (itemName : String)
  | itemUnavailable (name : String)
  | invalidCustomizations (name : String) (invalid valid : List String)
  | added (name : String) (quantity lineTotal newTotal : ℤ)
  | internalNoOrder
deriving DecidableEq, Repr

/-- Body of `add_item_to_order` after the auto-start of an order: lookup,
availability and customization checks, then append a fresh line and add its
line total to the running total. -/
def addItemToCurrentOrder (s : CafeKioskSystem) (itemName : String) (quantity : ℤ)
    (customizations : List String) (notes : String) :
    CafeKioskSystem × AddItemResult :=
  match findMenuItem itemName with
  | none => (s, AddItemResult.itemNotFound itemName)
  | some mi =>
    if mi.available = false then
      (s, AddItemResult.itemUnavailable mi.name)
    else
      let invalid := customizations.filter (fun c => !(mi.customizations.contains c))
      if customizations ≠ [] ∧ invalid ≠ [] then
        (s, AddItemResult.invalidCustomizations mi.name invalid mi.customizations)
      else
        match s.currentOrder with
        | none => (s, AddItemResult.internalNoOrder)
        | some o =>
          let oi : OrderItem :=
            { menuItem := mi, quantity := quantity,
              customizations := customizations, notes := notes }
          let o' := { o with items := o.items ++ [oi]
                             totalAmount := o.totalAmount + oi.totalPrice }
          ({ s with currentOrder := some o' },
           AddItemResult.added mi.name quantity oi.totalPrice o'.totalAmount)

/-- `CafeKioskSystem.add_item_to_order`.  When no current order exists it
first silently starts one (`await self.start_new_order()`), then runs the
lookup and the add. -/
def addItemToOrder (s : CafeKioskSystem) (itemName : String) (quantity : ℤ)
    (customizations : List String) (notes : String) :
    CafeKioskSystem × AddItemResult :=
  addItemToCurrentOrder
    (if s.currentOrder.isNone then (startNewOrder s "").1 else s)
    itemName quantity customizations notes

/-- Outcome of the matching loop of `remove_item_from_order`. -/
structure RemoveOutcome where
  newItems : List OrderItem
  amountRemoved : ℤ
  removedWhole : Bool
  matchedName : String
deriving DecidableEq, Repr

/-- The loop of `remove_item_from_order`: find the first line whose item name
contains the query; drop the line if its quantity is at most the requested
quantity, otherwise decrement the quantity, and report the amount to subtract
from the running total. -/
def removeFirstMatch (itemNameLower : String) (quantity : ℤ) :
    List OrderItem → Option RemoveOutcome
  | [] => none
  | oi :: rest =>
    if strIn itemNameLower (strLower oi.menuItem.name) then
      if oi.quantity ≤ quantity then
        some { newItems := rest, amountRemoved := oi.totalPrice,
               removedWhole := true, matchedName := oi.menuItem.name }
      else
        some { newItems := { oi with quantity := oi.quantity - quantity } :: rest
               amountRemoved := oi.menuItem.price * quantity
               removedWhole := false
               matchedName := oi.menuItem.name }
    else
      match removeFirstMatch itemNameLower quantity rest with
      | none => none
      | some out => some { out with newItems := oi :: out.newItems }

/-- Result of `remove_item_from_order`; one constructor per return statement. -/
inductive RemoveItemResult
  | noActiveOrder
  | removedLine (name : String) (newTotal : ℤ)
  | reducedQuantity (name : String) (newTotal : ℤ)
  | itemNotInOrder (itemName : String)
deriving DecidableEq, Repr

/-- `CafeKioskSystem.remove_item_from_order`. -/
def removeItemFromOrder (s : CafeKioskSystem) (itemName : String) (quantity : ℤ) :
    CafeKioskSystem × RemoveItemResult :=
  match s.currentOrder with
  | none => (s, RemoveItemResult.noActiveOrder)
  | some o =>
    if o.items.isEmpty then
      (s, RemoveItemResult.noActiveOrder)
    else
      match removeFirstMatch (strLower itemName) quantity o.items with
      | none => (s, RemoveItemResult.itemNotInOrder itemName)
      | some out =>
        let o' := { o with items := out.newItems
                           totalAmount := o.totalAmount - out.amountRemoved }
        ({ s with currentOrder := some o' },
         if out.removedWhole then RemoveItemResult.removedLine out.matchedName o'.totalAmount
         else RemoveItemResult.reducedQuantity out.matchedName o'.totalAmount)

/-- Python truthiness of the optional payment amount: `if amount and ...` is
taken only when an amount was supplied and it is nonzero (`0.0` is falsy). -/
def amountTruthy : Option ℤ → Bool
  | none => false
  | some a => a ≠ 0

/-- Result of `process_payment`; one constructor per return statement. -/
inductive PaymentResult
  | noActiveOrder
  | alreadyPaid
  | insufficientPayment (total paid : ℤ)
  | success (total : ℤ) (method orderId : String)
deriving DecidableEq, Repr

/-- The system state of `process_payment` at the simulated-processing point
(after `payment_status = PROCESSING`, during `await asyncio.sleep(2)`):
identical to the input state except that a successfully guarded current
order is marked processing. -/
def processPaymentPhase1 (s : CafeKioskSystem) (amount : Option ℤ) : CafeKioskSystem :=
  match s.currentOrder with
  | none => s
  | some o =>
    if o.paymentStatus = PaymentStatus.completed then s
    else if amountTruthy amount = true ∧ amount.getD 0 < o.totalAmount then s
    else { s with currentOrder := some { o with paymentStatus := PaymentStatus.processing } }

/-- `CafeKioskSystem.process_payment`: guards (no order, already paid,
insufficient nonzero amount), then payment completed, order preparing, order
appended to history, current order cleared. -/
def processPayment (s : CafeKioskSystem) (paymentMethod : String) (amount : Option ℤ) :
    CafeKioskSystem × PaymentResult :=
  match s.currentOrder with
  | none => (s, PaymentResult.noActiveOrder)
  | some o =>
    if o.paymentStatus = PaymentStatus.completed then
      (s, PaymentResult.alreadyPaid)
    else if amountTruthy amount = true ∧ amount.getD 0 < o.totalAmount then
      (s, PaymentResult.insufficientPayment o.totalAmount (amount.getD 0))
    else
      let paid := { o with paymentStatus := PaymentStatus.completed
                           status := OrderStatus.preparing }
      ({ s with currentOrder := none
                orderHistory := s.orderHistory ++ [paid] },
       PaymentResult.success o.totalAmount paymentMethod o.id)

/-- Result of `cancel_order`; one constructor per return statement. -/
inductive CancelResult
  | noActiveOrder
  | cancelled (orderId : String)
deriving DecidableEq, Repr

/-- `CafeKioskSystem.cancel_order`: marks the order cancelled and drops it
(the cancelled object is discarded, not added to history). -/
def cancelOrder (s : CafeKioskSystem) : CafeKioskSystem × CancelResult :=
  match s.currentOrder with
  | none => (s, CancelResult.noActiveOrder)
  | some o => ({ s with currentOrder := none }, CancelResult.cancelled o.id)

/-- Sum of the line totals of a list of order lines, the recomputed total the
running `total_amount` is supposed to track. -/
def sumLineTotals (items : List OrderItem) : ℤ :=
  (items.map OrderItem.totalPrice).sum

/-- The running-total invariant: whenever a current order exists, its
`total_amount` equals the sum of its line totals. -/
def totalInvariant (s : CafeKioskSystem) : Prop :=
  ∀ o, s.currentOrder = some o → o.totalAmount = sumLineTotals o.items

/-- Robot state, from `RobotController.__init__` in hri_functions.py:
position (started at the origin), battery level, and the busy flag. -/
structure RobotController where
  x : ℚ
  y : ℚ
  z : ℚ
  batteryLevel : ℕ
  isMoving : Bool
deriving DecidableEq, Repr

/-- The robot as built by `RobotController.__init__`. -/
def initialRobot : RobotController :=
  { x := 0, y := 0, z := 0, batteryLevel := 85, isMoving := false }

/-- Result of the four movement methods; one constructor per return
statement of each. -/
inductive MoveResult
  | busy
  | movedForward (distance : ℚ)
  | movedBackward (distance : ℚ)
  | turnedLeft (angle : ℚ)
  | turnedRight (angle : ℚ)
deriving DecidableEq, Repr

/-- `RobotController.move_forward`: rejected with the busy message when
`is_moving`; otherwise the flag is raised for the simulated travel time
(distance over speed, only a sleep duration, not modelled further) and
lowered again, and `position["x"]` grows by the distance. -/
def moveForward (r : RobotController) (distance speed : ℚ) :
    RobotController × MoveResult :=
  if r.isMoving then (r, MoveResult.busy)
  else
    let _movementTime := distance / speed
    let moving := { r with isMoving := true }
    let done := { moving with x := moving.x + distance, isMoving := false }
    (done, MoveResult.movedForward distance)

/-- `RobotController.move_backward`: as `move_forward` with the distance
subtracted from `position["x"]`. -/
def moveBackward (r : RobotController) (distance speed : ℚ) :
    RobotController × MoveResult :=
  if r.isMoving then (r, MoveResult.busy)
  else
    let _movementTime := distance / speed
    let moving := { r with isMoving := true }
    let done := { moving with x := moving.x - distance, isMoving := false }
    (done, MoveResult.movedBackward distance)

/-- `RobotController.turn_left`: busy-guarded; the source tracks no heading,
so a completed turn leaves every stored field as it was. -/
def turnLeft (r : RobotController) (angle : ℚ) : RobotController × MoveResult :=
  if r.isMoving then (r, MoveResult.busy)
  else
    let moving := { r with isMoving := true }
    let done := { moving with isMoving := false }
    (done, MoveResult.turnedLeft angle)

/-- `RobotController.turn_right`: busy-guarded; no heading is tracked. -/
def turnRight (r : RobotController) (angle : ℚ) : RobotController × MoveResult :=
  if r.isMoving then (r, MoveResult.busy)
  else
    let moving := { r with isMoving := true }
    let done := { moving with isMoving := false }
    (done, MoveResult.turnedRight angle)

/-- Kiosk screen enumeration, from `UIState` in kiosk_ui.py. -/
inductive UIState
  | welcome
  | menuCategories
  | menuItems
  | itemDetails
  | cartView
  | checkout
  | orderConfirmation
deriving DecidableEq, Repr

/-- Kiosk controller state, from `KioskUIController.__init__`: the current
screen, the selected category and the highlighted index.  The cafe system it
renders is passed to each operation that reads it; the cosmetic display
fields (screen width, border characters, display history) are omitted. -/
structure KioskUIController where
  currentState : UIState
  currentCategory : Option String
  highlightedIndex : ℕ
deriving DecidableEq, Repr

/-- The kiosk as built by `KioskUIController.__init__`. -/
def initialKiosk : KioskUIController :=
  { currentState := UIState.welcome, currentCategory := none, highlightedIndex := 0 }

/-- The category-string normalization `category.lower().replace(" ", "_")`
performed by `display_menu_items`. -/
def normalizeCategory (category : String) : String :=
  replaceChar (strLower category) ' ' '_'

/-- The item list backing a category screen: available menu items of the
current category, in menu order (the filter in `display_menu_items`,
`navigate_down` and `select_highlighted_item`). -/
def menuItemsInCategory (cat : Option String) : List MenuItem :=
  menu.filter (fun item => cat = some item.category && item.available)

/-- `KioskUIController.display_welcome_screen` (state effect only). -/
def displayWelcomeScreen (k : KioskUIController) : KioskUIController :=
  { k with currentState := UIState.welcome }

/-- `KioskUIController.display_menu_categories` (state effect only; the
highlighted index is read for rendering but not changed). -/
def displayMenuCategories (k : KioskUIController) : KioskUIController :=
  { k with currentState := UIState.menuCategories }

/-- `KioskUIController.display_menu_items`: unconditionally switches to the
items screen and stores the normalized category, leaving the highlighted
index untouched (this holds even when the category turns out to be empty,
since the early return happens after both assignments). -/
def displayMenuItems (k : KioskUIController) (category : String) : KioskUIController :=
  { k with currentState := UIState.menuItems
           currentCategory := some (normalizeCategory category) }

/-- `KioskUIController.display_cart_view` (state effect only). -/
def displayCartView (k : KioskUIController) : KioskUIController :=
  { k with currentState := UIState.cartView }

/-- `KioskUIController.display_checkout_screen`: the screen is set before
the no-order early return, so it changes in either case. -/
def displayCheckoutScreen (k : KioskUIController) : KioskUIController :=
  { k with currentState := UIState.checkout }

/-- `KioskUIController.display_order_confirmation` (state effect only). -/
def displayOrderConfirmation (k : KioskUIController) : KioskUIController :=
  { k with currentState := UIState.orderConfirmation }

/-- `KioskUIController.navigate_up`: decrement the highlighted index when it
is positive; the re-render leaves the modelled fields unchanged (for the
items screen the category round-trips through the space/underscore
translation). -/
def navigateUp (k : KioskUIController) : KioskUIController :=
  if k.highlightedIndex > 0 then { k with highlightedIndex := k.highlightedIndex - 1 }
  else k

/-- The `max_index` computed by `navigate_down`: 3 on the categories screen,
length minus one of the backing list on the items and cart screens (so -1
when that list is empty), 0 elsewhere. -/
def navMaxIndex (k : KioskUIController) (cafe : CafeKioskSystem) : ℤ :=
  match k.currentState with
  | UIState.menuCategories => 3
  | UIState.menuItems => (menuItemsInCategory k.currentCategory).length - 1
  | UIState.cartView =>
    match cafe.currentOrder with
    | some o => (o.items.length : ℤ) - 1
    | none => 0
  | _ => 0

/-- `KioskUIController.navigate_down`: increment the highlighted index only
when it is strictly below `max_index`; the re-render leaves the modelled
fields unchanged. -/
def navigateDown (k : KioskUIController) (cafe : CafeKioskSystem) : KioskUIController :=
  if (k.highlightedIndex : ℤ) < navMaxIndex k cafe then
    { k with highlightedIndex := k.highlightedIndex + 1 }
  else k

/-- `KioskUIController.select_highlighted_item`: on the categories screen a
valid index selects the category, resets the index and shows its items; on
the items screen a valid index shows the item details; anything else is the
"No item to select" fall-through. -/
def selectHighlightedItem (k : KioskUIController) : KioskUIController :=
  match k.currentState with
  | UIState.menuCategories =>
    let categories := ["coffee", "cold_drinks", "pastries", "sandwiches"]
    if k.highlightedIndex < categories.length then
      let cat := categories.getD k.highlightedIndex ""
      { k with highlightedIndex := 0
               currentState := UIState.menuItems
               currentCategory := some (normalizeCategory (replaceChar cat '_' ' ')) }
    else k
  | UIState.menuItems =>
    if k.highlightedIndex < (menuItemsInCategory k.currentCategory).length then
      { k with currentState := UIState.itemDetails }
    else k
  | _ => k

/-- `KioskUIController.go_back`, per the fixed back-map: items resets the
index and returns to categories, item details resets the index and returns
to the items of the stored category, cart and checkout return to categories
without touching the index, anything else returns to welcome. -/
def goBack (k : KioskUIController) : KioskUIController :=
  match k.currentState with
  | UIState.menuItems =>
    { k with highlightedIndex := 0, currentState := UIState.menuCategories }
  | UIState.itemDetails =>
    { k with highlightedIndex := 0
             currentState := UIState.menuItems
             currentCategory := k.currentCategory.map
               (fun c => normalizeCategory (replaceChar c '_' ' ')) }
  | UIState.cartView => { k with currentState := UIState.menuCategories }
  | UIState.checkout => { k with currentState := UIState.menuCategories }
  | _ => { k with currentState := UIState.welcome }

/-- Length of the selectable list backing the current screen, when the
screen has one: the four categories, the items of the current category, or
the lines of the current order on the cart screen. -/
def screenListLength (k : KioskUIController) (cafe : CafeKioskSystem) : Option ℕ :=
  match k.currentState with
  | UIState.menuCategories => some 4
  | UIState.menuItems => some (menuItemsInCategory k.currentCategory).length
  | UIState.cartView => cafe.currentOrder.map (fun o => o.items.length)
  | _ => none

/-- The bounds check of the claimed kiosk invariant: on a screen backed by a
list, the highlighted index must fall in `[0, length - 1]`. -/
def highlightInBounds (k : KioskUIController) (cafe : CafeKioskSystem) : Bool :=
  match screenListLength k cafe with
  | some len => k.highlightedIndex < len
  | none => true

/-- A result emitted back over the session socket by a dispatcher: a
`function_call_output` item carrying the original call id and the output
text. -/
structure FunctionCallOutput where
  callId : String
  output : String
deriving DecidableEq, Repr

/-- What a dispatcher does with one tool-call event: emit a result item, or
fall through without emitting anything. -/
inductive DispatchOutcome
  | emitted (out : FunctionCallOutput)
  | dropped
deriving DecidableEq, Repr

/-- `UnifiedVoiceAgent.handle_function_call` (unified_voice_agent.py), for an
event whose argument string parses: the registry `self.functions` is modelled
as a partial map from a function name to the outcome of invoking that
function on the event's arguments (`Except.error` is a raised exception,
caught and converted to an error output).  A name missing from the registry
falls through the `if function_name in self.functions` test with no else
branch, so nothing is sent. -/
def unifiedHandleFunctionCall (functions : String → Option (Except String String))
    (name callId : String) : DispatchOutcome :=
  match functions name with
  | some (Except.ok result) => DispatchOutcome.emitted { callId := callId, output := result }
  | some (Except.error e) =>
    DispatchOutcome.emitted { callId := callId, output := "Error: " ++ e }
  | none => DispatchOutcome.dropped

/-- `VoiceCafeKioskDemo.handle_function_call` (voice_cafe_kiosk_demo.py):
same shape, but an unregistered name takes the explicit else branch and
sends an error output naming the missing function, still keyed by the call
id. -/
def demoHandleFunctionCall (functions : String → Option (Except String String))
    (name callId : String) : DispatchOutcome :=
  match functions name with
  | some (Except.ok result) => DispatchOutcome.emitted { callId := callId, output := result }
  | some (Except.error e) =>
    DispatchOutcome.emitted { callId := callId, output := "Function execution error: " ++ e }
  | none =>
    DispatchOutcome.emitted
      { callId := callId, output := "Error: Function " ++ name ++ " not found" }

/-- Conversation context of `CafeVoiceAgent` (cafe_voice_agent.py): the mode
flag, the order-in-progress flag, the preference counters and the ordered
item log.  The wall-clock `last_interaction` field is omitted. -/
structure ConversationContext where
  mode : String
  orderInProgress : Bool
  customerPreferences : List (String × ℕ)
  orderedItems : List String
deriving DecidableEq, Repr

/-- The context as built by `CafeVoiceAgent.__init__`. -/
def initialContext : ConversationContext :=
  { mode := "general", orderInProgress := false,
    customerPreferences := [], orderedItems := [] }

/-- Increment the counter of a preference key, inserting it at the end when
absent (Python dict update in insertion order). -/
def bumpPreference : List (String × ℕ) → String → List (String × ℕ)
  | [], p => [(p, 1)]
  | (k, n) :: rest, p =>
    if k = p then (k, n + 1) :: rest else (k, n) :: bumpPreference rest p

/-- Lookup of a string argument of the tool call (`args["item_name"]`,
`"preference" in args`), with arguments as a key-value list. -/
def lookupArg (args : List (String × String)) (key : String) : Option String :=
  (args.find? (fun p => p.1 = key)).map Prod.snd

/-- `CafeVoiceAgent._update_context_from_function`, run by that agent's
`handle_function_call` after every successful invocation: the ordering
functions set mode ordering and raise the order flag, payment and cancel
lower the order flag, the four movement functions set mode robot control;
recommendation calls bump the preference counter and adds log the item
name. -/
def updateContextFromFunction (ctx : ConversationContext) (functionName : String)
    (args : List (String × String)) : ConversationContext :=
  let ctx1 :=
    if functionName = "start_new_order" ∨ functionName = "add_item_to_order" then
      { ctx with mode := "ordering", orderInProgress := true }
    else if functionName = "process_payment" then
      { ctx with orderInProgress := false }
    else if functionName = "cancel_order" then
      { ctx with orderInProgress := false }
    else if functionName = "move_forward" ∨ functionName = "move_backward" ∨
            functionName = "turn_left" ∨ functionName = "turn_right" then
      { ctx with mode := "robot_control" }
    else ctx
  let ctx2 :=
    if functionName = "get_recommendations" then
      match lookupArg args "preference" with
      | some p => { ctx1 with customerPreferences := bumpPreference ctx1.customerPreferences p }
      | none => ctx1
    else ctx1
  if functionName = "add_item_to_order" then
    match lookupArg args "item_name" with
    | some item => { ctx2 with orderedItems := ctx2.orderedItems ++ [item] }
    | none => ctx2
  else ctx2

/-- The conversation mode of the unified system (unified_main.py) after one
dispatched tool call.  In that system `conversation_context["mode"]` is
written only inside the registered `switch_mode` handler (guarded by the
mode whitelist); `UnifiedVoiceAgent.handle_function_call` itself never
touches the context, so dispatching any other function leaves the mode as it
was.  `switchArg` is the `mode` argument when the called function is
`switch_mode`. -/
def unifiedModeAfterDispatch (mode : String) (functionName : String)
    (switchArg : Option String) : String :=
  if functionName = "switch_mode" then
    match switchArg with
    | some m =>
      if m = "general" ∨ m = "ordering" ∨ m = "robot_control" then m else mode
    | none => mode
  else mode

/-- One cart-mutating call of the claimed invariant: an
`add_item_to_order` or a `remove_item_from_order` invocation. -/
inductive CartCall
  | add (itemName : String) (quantity : ℤ) (customizations : List String) (notes : String)
  | remove (itemName : String) (quantity : ℤ)
deriving DecidableEq, Repr

/-- State effect of one cart call. -/
def applyCartCall (s : CafeKioskSystem) : CartCall → CafeKioskSystem
  | CartCall.add n q c txt => (addItemToOrder s n q c txt).1
  | CartCall.remove n q => (removeItemFromOrder s n q).1

/-- State after a sequence of cart calls, first call first. -/
def applyCartCalls (s : CafeKioskSystem) (calls : List CartCall) : CafeKioskSystem :=
  calls.foldl applyCartCall s

theorem sumLineTotals_append (items : List OrderItem) (oi : OrderItem) :
    sumLineTotals (items ++ [oi]) = sumLineTotals items + oi.totalPrice := by
  simp [sumLineTotals]

theorem startNewOrder_totalInvariant (s : CafeKioskSystem) (name : String)
    (h : totalInvariant s) : totalInvariant (startNewOrder s name).1 := by
  unfold startNewOrder
  split
  · exact h
  · intro o ho
    simp only at ho
    cases ho
    simp [sumLineTotals]

theorem addItemToCurrentOrder_totalInvariant (s : CafeKioskSystem)
    (h : totalInvariant s) (n : String) (q : ℤ) (c : List String) (txt : String) :
    totalInvariant (addItemToCurrentOrder s n q c txt).1 := by
  unfold addItemToCurrentOrder
  rcases hf : findMenuItem n with _ | mi
  · exact h
  · simp only
    split
    · exact h
    · split
      · exact h
      · rcases ho : s.currentOrder with _ | o
        · exact h
        · intro o' ho'
          simp only at ho'
          cases ho'
          simp only [sumLineTotals_append]
          rw [h o ho]

theorem addItemToOrder_totalInvariant (s : CafeKioskSystem)
    (h : totalInvariant s) (n : String) (q : ℤ) (c : List String) (txt : String) :
    totalInvariant (addItemToOrder s n q c txt).1 := by
  unfold addItemToOrder
  apply addItemToCurrentOrder_totalInvariant
  split
  · exact startNewOrder_totalInvariant s "" h
  · exact h

theorem removeFirstMatch_sum (nl : String) (q : ℤ) (items : List OrderItem)
    (out : RemoveOutcome) (h : removeFirstMatch nl q items = some out) :
    sumLineTotals out.newItems = sumLineTotals items - out.amountRemoved := by
  induction items generalizing out with
  | nil => simp [removeFirstMatch] at h
  | cons oi rest ih =>
    unfold removeFirstMatch at h
    split at h
    · split at h
      · cases h
        simp [sumLineTotals]
      · cases h
        simp [sumLineTotals, OrderItem.totalPrice]
        ring
    · rcases hr : removeFirstMatch nl q rest with _ | out'
      · rw [hr] at h
        cases h
      · rw [hr] at h
        cases h
        have := ih out' hr
        simp [sumLineTotals] at this ⊢
        omega

theorem removeItemFromOrder_totalInvariant (s : CafeKioskSystem)
    (h : totalInvariant s) (n : String) (q : ℤ) :
    totalInvariant (removeItemFromOrder s n q).1 := by
  unfold removeItemFromOrder
  rcases ho : s.currentOrder with _ | o
  · exact h
  · simp only
    split
    · exact h
    · rcases hr : removeFirstMatch (strLower n) q o.items with _ | out
      · exact h
      · intro o' ho'
        simp only at ho'
        cases ho'
        simp only [removeFirstMatch_sum (strLower n) q o.items out hr]
        rw [h o ho]

/-- A placeholder order used only as the `Option.getD` default below. -/
def dummyOrder : Order :=
  { id := "", customerName := "", items := [], status := OrderStatus.pending,
    paymentStatus := PaymentStatus.pending, totalAmount := 0 }

/-- Concrete scenario state: one latte added to a fresh system (this also
auto-starts order ORD0001 for "Customer 1"). -/
def exampleLatteSystem : CafeKioskSystem :=
  (addItemToOrder initialSystem "latte" 1 [] "").1

/-- The current order of `exampleLatteSystem`. -/
def exampleLatteOrder : Order :=
  exampleLatteSystem.currentOrder.getD dummyOrder

/-- C1.  For every sequence of `add_item_to_order` / `remove_item_from_order`
calls on a system whose running total agrees with its lines (in particular
any state with a freshly started or empty order), the state after the calls
still satisfies `total_amount = sum of price * quantity over the lines`;
applying this to every prefix of a call sequence gives the invariant after
every call, over exact (integer-cent) arithmetic. -/
theorem cafe_total_invariant_preserved (s : CafeKioskSystem)
    (h : totalInvariant s) (calls : List CartCall) :
    totalInvariant (applyCartCalls s calls) := by
  induction calls generalizing s with
  | nil => exact h
  | cons c rest ih =>
    have hstep : totalInvariant (applyCartCall s c) := by
      cases c with
      | add n q cs txt => exact addItemToOrder_totalInvariant s h n q cs txt
      | remove n q => exact removeItemFromOrder_totalInvariant s h n q
    simpa [applyCartCalls] using ih (applyCartCall s c) hstep

/-- Witness for C1: a concrete two-call sequence (add two lattes, remove
one) starting from the fresh system, whose hypothesis holds since the fresh
system has no order. -/
theorem cafe_total_invariant_witness :
    totalInvariant (applyCartCalls initialSystem
      [CartCall.add "latte" 2 [] "", CartCall.remove "latte" 1]) :=
  cafe_total_invariant_preserved initialSystem (fun _ ho => nomatch ho)
    [CartCall.add "latte" 2 [] "", CartCall.remove "latte" 1]

/-- C2.  A `process_payment` call that passes the guards (an active order,
not already paid, no truthy insufficient amount) drives the order through
the distinct intermediate payment state `processing` (the state during the
simulated processing delay), then completes: the final state has no current
order, and the order is appended to the history with payment `completed`
and status `preparing`. -/
theorem processPayment_success_transitions (s : CafeKioskSystem) (o : Order)
    (paymentMethod : String) (amount : Option ℤ)
    (h : s.currentOrder = some o)
    (hpaid : o.paymentStatus ≠ PaymentStatus.completed)
    (hamt : ¬(amountTruthy amount = true ∧ amount.getD 0 < o.totalAmount)) :
    (processPaymentPhase1 s amount).currentOrder =
      some { o with paymentStatus := PaymentStatus.processing } ∧
    PaymentStatus.processing ≠ PaymentStatus.completed ∧
    (processPayment s paymentMethod amount).1.currentOrder = none ∧
    (processPayment s paymentMethod amount).1.orderHistory =
      s.orderHistory ++ [{ o with paymentStatus := PaymentStatus.completed,
                                  status := OrderStatus.preparing }] ∧
    (processPayment s paymentMethod amount).2 =
      PaymentResult.success o.totalAmount paymentMethod o.id := by
  unfold processPayment processPaymentPhase1
  rw [h]
  simp [hpaid, hamt]

/-- Witness for C2: paying the concrete one-latte order with no explicit
amount clears the current order and files it as preparing and completed. -/
theorem processPayment_success_witness :
    (processPaymentPhase1 exampleLatteSystem none).currentOrder =
      some { exampleLatteOrder with paymentStatus := PaymentStatus.processing } ∧
    (processPayment exampleLatteSystem "card" none).1.currentOrder = none ∧
    (processPayment exampleLatteSystem "card" none).1.orderHistory =
      exampleLatteSystem.orderHistory ++
        [{ exampleLatteOrder with paymentStatus := PaymentStatus.completed,
                                  status := OrderStatus.preparing }] := by
  have h := processPayment_success_transitions exampleLatteSystem exampleLatteOrder
    "card" none (by decide) (by decide) (by decide)
  exact ⟨h.1, h.2.2.1, h.2.2.2.1⟩

/-- C3 counterexample.  The insufficiency guard is `if amount and amount <
total`, and a supplied amount of exactly 0 is falsy in Python, so paying
$0.00 against the $4.75 latte order is NOT rejected as insufficient: the
payment succeeds and the order is completed and cleared. -/
theorem processPayment_zero_amount_succeeds :
    (0 : ℤ) < 475 ∧
    exampleLatteSystem.currentOrder.map Order.totalAmount = some 475 ∧
    (processPayment exampleLatteSystem "card" (some 0)).2 =
      PaymentResult.success 475 "card" "ORD0001" ∧
    (processPayment exampleLatteSystem "card" (some 0)).1.currentOrder = none := by
  decide

/-- C3 (amended).  For every supplied NONZERO amount strictly below the
active order's total (and the order not already paid), `process_payment`
returns the insufficient-payment error and returns the state completely
unchanged. -/
theorem processPayment_insufficient_nonzero (s : CafeKioskSystem) (o : Order)
    (paymentMethod : String) (a : ℤ)
    (h : s.currentOrder = some o)
    (hpaid : o.paymentStatus ≠ PaymentStatus.completed)
    (hz : a ≠ 0) (hlt : a < o.totalAmount) :
    processPayment s paymentMethod (some a) =
      (s, PaymentResult.insufficientPayment o.totalAmount a) := by
  unfold processPayment
  rw [h]
  simp [hpaid, amountTruthy, hz, hlt]

/-- Witness for the amended C3: offering $1.00 for the $4.75 latte order is
rejected as insufficient and the state is untouched. -/
theorem processPayment_insufficient_witness :
    processPayment exampleLatteSystem "card" (some 100) =
      (exampleLatteSystem, PaymentResult.insufficientPayment 475 100) := by
  have h := processPayment_insufficient_nonzero exampleLatteSystem exampleLatteOrder
    "card" 100 (by decide) (by decide) (by decide) (by decide)
  rw [h]
  decide

/-- C4 counterexample.  In `UnifiedVoiceAgent.handle_function_call` the
registered-name test has no else branch: dispatching the spec scenario
(function "unknown_fn", call id "call-1", empty parsed arguments, a registry
not containing that name) emits NO result item at all — the event is
silently dropped instead of producing an error Result carrying the call
id. -/
theorem unified_unknown_function_dropped :
    unifiedHandleFunctionCall (fun _ => none) "unknown_fn" "call-1" =
      DispatchOutcome.dropped := by
  rfl

/-- C4 (amended).  The demo dispatcher
(`VoiceCafeKioskDemo.handle_function_call`) does emit an error Result for an
unregistered name, still carrying the original call id and naming the
unknown function in its output; the unified agent's dispatcher instead
silently drops such events. -/
theorem demo_unknown_function_emits_result
    (functions : String → Option (Except String String)) (name callId : String)
    (h : functions name = none) :
    demoHandleFunctionCall functions name callId =
      DispatchOutcome.emitted
        { callId := callId, output := "Error: Function " ++ name ++ " not found" } ∧
    unifiedHandleFunctionCall functions name callId = DispatchOutcome.dropped := by
  unfold demoHandleFunctionCall unifiedHandleFunctionCall
  rw [h]
  exact ⟨rfl, rfl⟩

/-- Witness for the amended C4: the spec scenario against the demo
dispatcher, whose output carries call id "call-1" and contains "unknown". -/
theorem demo_unknown_function_witness :
    demoHandleFunctionCall (fun _ => none) "unknown_fn" "call-1" =
      DispatchOutcome.emitted
        { callId := "call-1", output := "Error: Function unknown_fn not found" } ∧
    strIn "unknown" "Error: Function unknown_fn not found" = true :=
  ⟨(demo_unknown_function_emits_result (fun _ => none) "unknown_fn" "call-1" rfl).1,
   by decide⟩

/-- C5 counterexample.  `add_item_to_order` auto-starts an order BEFORE the
catalog lookup, so calling it with the unmatchable name "xyz-nonexistent" on
a fresh system does return the item-not-found error but also mutates the
state: a new (empty) order ORD0001 now exists where none did. -/
theorem addItem_unknown_creates_order :
    (addItemToOrder initialSystem "xyz-nonexistent" 1 [] "").2 =
      AddItemResult.itemNotFound "xyz-nonexistent" ∧
    initialSystem.currentOrder = none ∧
    (addItemToOrder initialSystem "xyz-nonexistent" 1 [] "").1 ≠ initialSystem ∧
    (addItemToOrder initialSystem "xyz-nonexistent" 1 [] "").1.currentOrder ≠ none := by
  decide

/-- C5 (amended).  For every system state, adding "xyz-nonexistent" returns
the item-not-found error and adds no line and changes no totals; when an
order is already active the state is completely unchanged, but when none is
active the call has first silently created a fresh empty order (the
auto-start of `add_item_to_order`). -/
theorem addItem_unknown_no_line_added (s : CafeKioskSystem) (q : ℤ)
    (c : List String) (txt : String) :
    (addItemToOrder s "xyz-nonexistent" q c txt).2 =
      AddItemResult.itemNotFound "xyz-nonexistent" ∧
    (addItemToOrder s "xyz-nonexistent" q c txt).1 =
      (if s.currentOrder.isNone then (startNewOrder s "").1 else s) := by
  have hf : findMenuItem "xyz-nonexistent" = none := by decide
  unfold addItemToOrder addItemToCurrentOrder
  rw [hf]
  exact ⟨rfl, rfl⟩

/-- The robot of `RobotController.__init__` with the busy flag raised, as in
the spec scenario of a movement issued while one is in progress. -/
def busyRobot : RobotController :=
  { initialRobot with isMoving := true }

/-- C6.  While `is_moving` is true, each of the four movement commands
returns the busy rejection and the identical robot state: position, battery
and flag untouched, nothing queued. -/
theorem robot_busy_rejected (r : RobotController) (d sp a : ℚ)
    (h : r.isMoving = true) :
    moveForward r d sp = (r, MoveResult.busy) ∧
    moveBackward r d sp = (r, MoveResult.busy) ∧
    turnLeft r a = (r, MoveResult.busy) ∧
    turnRight r a = (r, MoveResult.busy) := by
  unfold moveForward moveBackward turnLeft turnRight
  simp [h]

/-- Witness for C6: the concrete busy robot rejects a 1 m move at 0.5 m/s
and a 90 degree turn, with its state unchanged. -/
theorem robot_busy_rejected_witness :
    moveForward busyRobot 1 (1/2) = (busyRobot, MoveResult.busy) ∧
    turnLeft busyRobot 90 = (busyRobot, MoveResult.busy) := by
  have h := robot_busy_rejected busyRobot 1 (1/2) 90 (by decide)
  exact ⟨h.1, h.2.2.1⟩

/-- C7 counterexample.  In the unified system (unified_main.py with
`UnifiedVoiceAgent.handle_function_call`), dispatching `add_item_to_order`,
`start_new_order` or `move_forward` leaves the conversation mode exactly as
it was ("general" here): the mode flag changes only through the explicit
`switch_mode` tool, not as a side effect of which function was dispatched. -/
theorem unified_dispatch_mode_unchanged :
    unifiedModeAfterDispatch "general" "add_item_to_order" none = "general" ∧
    unifiedModeAfterDispatch "general" "start_new_order" none = "general" ∧
    unifiedModeAfterDispatch "general" "move_forward" none = "general" ∧
    "general" ≠ "ordering" ∧ "general" ≠ "robot_control" ∧
    unifiedModeAfterDispatch "general" "switch_mode" (some "ordering") = "ordering" := by
  decide

/-- C7 (amended).  The claimed mode side effects exist in the
`CafeVoiceAgent` dispatcher (cafe_voice_agent.py), whose
`_update_context_from_function` runs on every successfully dispatched call:
`start_new_order` and `add_item_to_order` set mode "ordering" and raise the
order-in-progress flag, `process_payment` and `cancel_order` lower that flag
(leaving the mode untouched), and the four movement functions set mode
"robot_control".  The unified system's dispatcher has no such side effect. -/
theorem cafe_agent_mode_side_effects (ctx : ConversationContext)
    (args : List (String × String)) :
    ((updateContextFromFunction ctx "start_new_order" args).mode = "ordering" ∧
     (updateContextFromFunction ctx "start_new_order" args).orderInProgress = true) ∧
    ((updateContextFromFunction ctx "add_item_to_order" args).mode = "ordering" ∧
     (updateContextFromFunction ctx "add_item_to_order" args).orderInProgress = true) ∧
    ((updateContextFromFunction ctx "process_payment" args).orderInProgress = false ∧
     (updateContextFromFunction ctx "process_payment" args).mode = ctx.mode) ∧
    ((updateContextFromFunction ctx "cancel_order" args).orderInProgress = false ∧
     (updateContextFromFunction ctx "cancel_order" args).mode = ctx.mode) ∧
    (updateContextFromFunction ctx "move_forward" args).mode = "robot_control" ∧
    (updateContextFromFunction ctx "move_backward" args).mode = "robot_control" ∧
    (updateContextFromFunction ctx "turn_left" args).mode = "robot_control" ∧
    (updateContextFromFunction ctx "turn_right" args).mode = "robot_control" := by
  refine ⟨⟨rfl, rfl⟩, ⟨?_, ?_⟩, ⟨rfl, rfl⟩, ⟨rfl, rfl⟩, rfl, rfl, rfl, rfl⟩
  · unfold updateContextFromFunction
    cases lookupArg args "item_name" <;> rfl
  · unfold updateContextFromFunction
    cases lookupArg args "item_name" <;> rfl

/-- C8.  Whenever the current order exists and is still pending,
`start_new_order` returns the already-active refusal and the whole system
state — current order included — is unchanged. -/
theorem startOrder_alreadyActive (s : CafeKioskSystem) (name : String)
    (h : orderIsActivePending s = true) :
    startNewOrder s name = (s, StartOrderResult.alreadyActive) := by
  unfold startNewOrder
  simp [h]

/-- Witness for C8: the spec scenario of two consecutive `start_new_order`
calls with no confirm or cancel between them; the second is refused. -/
theorem startOrder_alreadyActive_witness :
    orderIsActivePending (startNewOrder initialSystem "Sarah").1 = true ∧
    startNewOrder (startNewOrder initialSystem "Sarah").1 "Sarah" =
      ((startNewOrder initialSystem "Sarah").1, StartOrderResult.alreadyActive) :=
  ⟨by decide, startOrder_alreadyActive _ "Sarah" (by decide)⟩

/-- Kiosk state with the coffee list (5 items) shown and the highlight
navigated down to its last index 4. -/
def kioskCoffeeLast : KioskUIController :=
  navigateDown (navigateDown (navigateDown (navigateDown
    (displayMenuItems initialKiosk "coffee") initialSystem) initialSystem)
      initialSystem) initialSystem

/-- `kioskCoffeeLast` after `display_menu_items("pastries")`, a 4-item
list: the highlight index is not re-clamped by the screen switch. -/
def kioskSwitchedToPastries : KioskUIController :=
  displayMenuItems kioskCoffeeLast "pastries"

/-- C9 counterexample.  After the kiosk UI operations `display_menu_items
("coffee")`, four `navigate_down`s (index 4, the coffee list's last) and
`display_menu_items("pastries")`, the highlighted index is still 4 while
the pastries list backing the current screen has 4 items (valid indices 0
to 3): the claimed in-bounds invariant fails after a display operation,
which never re-clamps the index. -/
theorem kiosk_highlight_out_of_bounds :
    kioskSwitchedToPastries.highlightedIndex = 4 ∧
    screenListLength kioskSwitchedToPastries initialSystem = some 4 ∧
    highlightInBounds kioskSwitchedToPastries initialSystem = false := by
  decide

/-- C9 (amended).  The navigation operations themselves do clamp, never
wrap: `navigate_up` at index 0 is a no-op and otherwise only decrements;
`navigate_down` at or above the current list's max index is a no-op, and
from an in-bounds index it stays in bounds; `go_back` from the items or
item-details screens resets the index to 0.  (Display/screen-switch
operations do not re-clamp, which is what breaks the claimed global
invariant.) -/
theorem kiosk_nav_clamped (k : KioskUIController) (cafe : CafeKioskSystem) :
    (k.highlightedIndex = 0 → navigateUp k = k) ∧
    (navigateUp k).highlightedIndex ≤ k.highlightedIndex ∧
    (navMaxIndex k cafe ≤ (k.highlightedIndex : ℤ) → navigateDown k cafe = k) ∧
    ((k.highlightedIndex : ℤ) ≤ navMaxIndex k cafe →
      ((navigateDown k cafe).highlightedIndex : ℤ) ≤ navMaxIndex k cafe) ∧
    ((k.currentState = UIState.menuItems ∨ k.currentState = UIState.itemDetails) →
      (goBack k).highlightedIndex = 0) := by
  refine ⟨?_, ?_, ?_, ?_, ?_⟩
  · intro h0
    unfold navigateUp
    simp [h0]
  · unfold navigateUp
    split <;> simp
  · intro hge
    unfold navigateDown
    rw [if_neg (by omega : ¬((k.highlightedIndex : ℤ) < navMaxIndex k cafe))]
  · intro hle
    unfold navigateDown
    split
    · next hlt =>
      show ((k.highlightedIndex + 1 : ℕ) : ℤ) ≤ navMaxIndex k cafe
      omega
    · exact hle
  · intro hstate
    unfold goBack
    rcases hstate with hs | hs
    · rw [hs]
    · rw [hs]

/-- Kiosk state on the 4-item pastries list with the highlight at the last
index 3, for the spec scenario. -/
def kioskPastriesLast : KioskUIController :=
  { currentState := UIState.menuItems, currentCategory := some "pastries",
    highlightedIndex := 3 }

/-- Witness for the amended C9: `navigate_down` at the last index of the
4-item pastries list is a no-op, and `navigate_up` at index 0 is a no-op. -/
theorem kiosk_nav_clamped_witness :
    navigateDown kioskPastriesLast initialSystem = kioskPastriesLast ∧
    navigateUp initialKiosk = initialKiosk :=
  ⟨(kiosk_nav_clamped kioskPastriesLast initialSystem).2.2.1 (by decide),
   (kiosk_nav_clamped initialKiosk initialSystem).1 (by decide)⟩

theorem addItemToCurrentOrder_no_internal (s : CafeKioskSystem) (o : Order)
    (ho : s.currentOrder = some o) (n : String) (q : ℤ) (c : List String)
    (txt : String) :
    (addItemToCurrentOrder s n q c txt).2 ≠ AddItemResult.internalNoOrder := by
  unfold addItemToCurrentOrder
  rw [ho]
  rcases findMenuItem n with _ | mi
  · simp
  · simp only
    split
    · simp
    · split
      · simp
      · simp

/-- C10.  When no order is active, `add_item_to_order` first silently starts
a new order — the started order carries the auto-generated customer name
"Customer {counter}" and the next sequential id "ORD{counter:04d}", and the
counter advances — and then performs the add against that fresh order, so
the call never fails for lack of an active order; by contrast
`process_payment` and `cancel_order` on the same state both return their
no-active-order errors. -/
theorem addItem_autostarts (s : CafeKioskSystem) (n : String) (q : ℤ)
    (c : List String) (txt paymentMethod : String) (amount : Option ℤ)
    (h : s.currentOrder = none) :
    addItemToOrder s n q c txt =
      addItemToCurrentOrder (startNewOrder s "").1 n q c txt ∧
    (startNewOrder s "").1.currentOrder.map Order.customerName =
      some ("Customer " ++ toString s.orderCounter) ∧
    (startNewOrder s "").1.currentOrder.map Order.id =
      some ("ORD" ++ pad4 s.orderCounter) ∧
    (startNewOrder s "").1.orderCounter = s.orderCounter + 1 ∧
    (addItemToOrder s n q c txt).2 ≠ AddItemResult.internalNoOrder ∧
    (processPayment s paymentMethod amount).2 = PaymentResult.noActiveOrder ∧
    (cancelOrder s).2 = CancelResult.noActiveOrder := by
  have hpend : orderIsActivePending s = false := by
    unfold orderIsActivePending
    rw [h]
  have hdelegate : addItemToOrder s n q c txt =
      addItemToCurrentOrder (startNewOrder s "").1 n q c txt := by
    unfold addItemToOrder
    rw [h]
    rfl
  have hsome : ∃ o, (startNewOrder s "").1.currentOrder = some o := by
    unfold startNewOrder
    rw [hpend]
    simp
  refine ⟨hdelegate, ?_, ?_, ?_, ?_, ?_, ?_⟩
  · unfold startNewOrder
    rw [hpend]
    simp
  · unfold startNewOrder
    rw [hpend]
    simp
  · unfold startNewOrder
    rw [hpend]
    simp
  · obtain ⟨o, ho⟩ := hsome
    rw [hdelegate]
    exact addItemToCurrentOrder_no_internal _ o ho n q c txt
  · unfold processPayment
    rw [h]
  · unfold cancelOrder
    rw [h]

/-- Witness for C10: on the fresh system, the auto-started order is
ORD0001 for "Customer 1", and payment or cancellation on the same fresh
state fail for lack of an active order. -/
theorem addItem_autostarts_witness :
    (startNewOrder initialSystem "").1.currentOrder.map Order.customerName =
      some "Customer 1" ∧
    (startNewOrder initialSystem "").1.currentOrder.map Order.id =
      some "ORD0001" ∧
    (processPayment initialSystem "card" none).2 = PaymentResult.noActiveOrder ∧
    (cancelOrder initialSystem).2 = CancelResult.noActiveOrder := by
  have h := addItem_autostarts initialSystem "latte" 1 [] "" "card" none rfl
  exact ⟨h.2.1.trans (by decide), h.2.2.1.trans (by decide),
         h.2.2.2.2.2.1, h.2.2.2.2.2.2⟩
